import Mathlib

/-!
Verification of the update-polling Telegram dice/coin bot (`app.py`).

Python strings are embedded as `List Char`; the handful of helper
operations (`strip`, `lower`, the two roll regexes, mention removal)
are translated character by character from the source.  The random
module is modelled by an abstract stream `src : Nat -> Nat` giving the
value returned by the i-th call to a random primitive, together with a
running index: the index advances by exactly the number of primitive
calls, so "entropy consumed" is the index delta.
-/

namespace DiceBot

/-- Python `str.strip()` over ASCII-ish whitespace: drop whitespace from
both ends. -/
def pyStrip (s : List Char) : List Char :=
  ((s.dropWhile Char.isWhitespace).reverse.dropWhile Char.isWhitespace).reverse

/-- Python `str.lower()` restricted to the ASCII range that the bot's
inputs use. -/
def pyLower (s : List Char) : List Char :=
  s.map Char.toLower

/-- `re.fullmatch(r"\d+", s)` over ASCII digits: nonempty and all digits. -/
def all_digits (s : List Char) : Bool :=
  !s.isEmpty && s.all Char.isDigit

/-- Python `int(...)` applied to an all-digit string. -/
def digitsToNat (s : List Char) : Nat :=
  s.foldl (fun a c => a * 10 + (c.toNat - 48)) 0

/-- `re.fullmatch(r"(\d{1,2})d(\d{1,4})", s)`: because `d` is not a
digit, a full match must put the first group exactly at the maximal
digit run at the front of the string, so take/drop on `Char.isDigit`
implements the anchored regex. -/
def matchNdM (s : List Char) : Option (Nat × Nat) :=
  let ds := s.takeWhile Char.isDigit
  match s.dropWhile Char.isDigit with
  | 'd' :: tl =>
    if 1 ≤ ds.length && ds.length ≤ 2
        && 1 ≤ tl.length && tl.length ≤ 4 && tl.all Char.isDigit then
      some (digitsToNat ds, digitsToNat tl)
    else
      none
  | _ => none

/-- The message carried by the `ValueError` that `parse_roll_arg` raises. -/
def invalid_format_msg : String :=
  "Invalid format. Use /roll, /roll 20, or /roll NdM e.g. 2d6"

/-- `parse_roll_arg` from `app.py`: empty means 1d6; an all-digit string
means 1dX; `NdM` gives the two captured integers; anything else raises.
On success N is clamped to 1..20 and M to 2..1000. -/
def parse_roll_arg (s0 : List Char) : Except String (Nat × Nat) :=
  let s := pyLower (pyStrip s0)
  if s.isEmpty then
    Except.ok (1, 6)
  else
    let nm : Option (Nat × Nat) :=
      if all_digits s then some (1, digitsToNat s) else matchNdM s
    match nm with
    | none => Except.error invalid_format_msg
    | some (n, m) => Except.ok (max 1 (min n 20), max 2 (min m 1000))

/-- Python `\w` (ASCII fragment): letters, digits, underscore. -/
def isWordChar (c : Char) : Bool :=
  c.isAlphanum || c == '_'

/-- `re.sub(r"@(\w+)", "", t)`: delete every `@` that is followed by at
least one word character, together with the maximal word-character run
after it; the scan is left to right and non-overlapping, matching
`re.sub`. -/
def removeMentionsF : Nat → List Char → List Char
  | _, [] => []
  | 0, s => s
  | fuel + 1, c :: rest =>
    if c == '@' && !(rest.takeWhile isWordChar).isEmpty then
      removeMentionsF fuel (rest.dropWhile isWordChar)
    else
      c :: removeMentionsF fuel rest

/-- Entry point of the substitution: every step of `removeMentionsF`
consumes at least one character, so fuel equal to the length is never
exhausted and the zero-fuel row is unreachable. -/
def removeMentions (s : List Char) : List Char :=
  removeMentionsF s.length s

/-!
Reply-string constants.  The source file's string literals are
double-encoded UTF-8 ("mojibake"): the bytes that once encoded an emoji
were re-read as Latin-1, so the Python string for the die prefix is the
four characters U+00F0 U+0178 U+017D U+00B2, not U+1F3B2, and similarly
for the arrow, the coin, the cross mark and the robot.  The constants
below spell those literals exactly as they stand in `app.py`.
-/

/-- Literal prefix of dice replies in `app.py` (mojibake of a die emoji). -/
def dice_moji : String := "ðŸŽ²"

/-- Literal arrow in dice replies in `app.py` (mojibake of a right arrow). -/
def arrow_moji : String := "â†’"

/-- Literal prefix of coin replies in `app.py` (mojibake of a coin emoji). -/
def coin_moji : String := "ðŸª™"

/-- Literal prefix of the parse-error reply in `app.py` (mojibake of a
cross mark). -/
def cross_moji : String := "âŒ"

/-- The fallback reply of `handle_command` (mojibake robot prefix). -/
def unknown_reply : String := "ðŸ¤– Unknown command. Type /help"

/-- The static usage text sent for `/start` (and hence `/help`), with the
source's mojibake bullet, dash and range characters. -/
def start_message : String :=
  "ðŸ‘‹ Namaste! Main ek simple bot hoon.\n\n" ++
  "Commands:\n" ++
  "â€¢ /flip â€” flip a coin\n" ++
  "â€¢ /coin â€” same as /flip\n" ++
  "â€¢ /roll â€” roll 1â€“6\n" ++
  "â€¢ /roll NdM â€” e.g. 2d6, 1d20\n" ++
  "â€¢ /help â€” show commands\n"

/-- The list `[random.randint(1, m) for _ in range(n)]`: the k-th die
takes the (idx+k)-th value of the abstract random stream. -/
def roll_values (src : Nat → Nat) (idx n : Nat) : List Nat :=
  (List.range n).map (fun k => src (idx + k))

/-- Python `str` of a list of ints: comma-space separated in brackets. -/
def fmt_list (rs : List Nat) : String :=
  "[" ++ String.intercalate ( ", " ) (rs.map (fun r => toString r)) ++ "]"

/-- `handle_command` from `app.py`, with explicit fuel for the one
self-call in the `/help` branch (that call passes the literal `/start`,
which lands in the non-recursive first branch, so fuel 2 is exact).
Returns the list of messages sent (chat id, text) and the advanced
random-stream index. -/
def handle_command_fuel :
    Nat → Int → List Char → (Nat → Nat) → Nat → List (Int × String) × Nat
  | 0, _, _, _, idx => ([], idx)
  | fuel + 1, chat_id, text, src, idx =>
    let t := removeMentions (pyStrip text)
    if "/start".data.isPrefixOf t then
      ([(chat_id, start_message)], idx)
    else if "/help".data.isPrefixOf t then
      handle_command_fuel fuel chat_id "/start".data src idx
    else if "/flip".data.isPrefixOf t || "/coin".data.isPrefixOf t then
      let result := if src idx % 2 == 0 then "HEADS" else "TAILS"
      ([(chat_id, coin_moji ++ " " ++ result)], idx + 1)
    else if "/roll".data.isPrefixOf t then
      match parse_roll_arg (pyStrip (t.drop 5)) with
      | Except.error e => ([(chat_id, cross_moji ++ " " ++ e)], idx)
      | Except.ok (n, m) =>
        let rolls := roll_values src idx n
        let total := rolls.sum
        if n == 1 then
          ([(chat_id,
              dice_moji ++ " d" ++ toString m ++ " " ++ arrow_moji ++ " "
                ++ toString (rolls.headD 0))], idx + n)
        else
          ([(chat_id,
              dice_moji ++ " " ++ toString n ++ "d" ++ toString m ++ " "
                ++ arrow_moji ++ " " ++ fmt_list rolls ++ " = "
                ++ toString total)], idx + n)
    else
      ([(chat_id, unknown_reply)], idx)

/-- The command interpreter: `handle_command(chat_id, text)` with the
random stream made explicit. -/
def handle_command (chat_id : Int) (text : List Char)
    (src : Nat → Nat) (idx : Nat) : List (Int × String) × Nat :=
  handle_command_fuel 2 chat_id text src idx

/-!
The poll loop (`poll_loop` in `app.py`).  One fetched update is a JSON
object with an `update_id` and an optional `message`; the message may
lack `chat.id` or `text`.  Dispatch to `handle_command` happens inside a
`try`/`except` that logs and swallows any handler exception, so the
batch processor is parameterised by an abstract handler that either
returns the messages it sent or fails.
-/

/-- `message.get("text")` / `message.get("chat", empty).get("id")` as the
loop sees them. -/
structure TgMessage where
  chat_id : Option Int
  text : Option String
deriving DecidableEq, Repr

/-- One element of `data["result"]`. -/
structure TgUpdate where
  update_id : Int
  message : Option TgMessage
deriving DecidableEq, Repr

/-- A command handler as the loop uses it: either the list of messages it
sent, or the exception it raised. -/
def Handler : Type :=
  Int → String → Except String (List (Int × String))

/-- The body of `for upd in data.get("result", [])`.  State: the held
offset (`last_update_id`) and the log of sent messages.  The offset is
set to `upd["update_id"]` first; missing message, falsy chat id (absent
or 0) or falsy text (absent or empty, from `msg.get("text") or ""`)
skips the rest; otherwise the handler runs and a raised exception is
caught without further state change. -/
def process_update (h : Handler) (st : Option Int × List (Int × String))
    (u : TgUpdate) : Option Int × List (Int × String) :=
  let off : Option Int := some u.update_id
  match u.message with
  | none => (off, st.2)
  | some msg =>
    let text := msg.text.getD ( "" )
    match msg.chat_id with
    | none => (off, st.2)
    | some cid =>
      if cid == 0 || text == "" then
        (off, st.2)
      else
        match h cid text with
        | Except.ok sent => (off, st.2 ++ sent)
        | Except.error _ => (off, st.2)

/-- The whole `for` loop over one successfully fetched batch. -/
def process_batch (h : Handler) (st : Option Int × List (Int × String))
    (batch : List TgUpdate) : Option Int × List (Int × String) :=
  batch.foldl (process_update h) st

/-- The `params` dict built for `getUpdates` each cycle. -/
structure FetchParams where
  timeout : Nat
  allowed_updates : List String
  offset : Option Int
deriving DecidableEq, Repr

/-- Construction of the fetch parameters in `poll_loop`: `offset` is set
to `last_update_id + 1` exactly when an offset is held. -/
def build_get_updates_params (poll_timeout : Nat) (last : Option Int) :
    FetchParams :=
  { timeout := poll_timeout
    allowed_updates := [ "message" ]
    offset := last.map (fun i => i + 1) }

/-- Modelled from the spec: the platform's get-updates call returns only
updates with identifier at least the `offset` parameter when one is
sent, so a request excludes an identifier exactly when the parameter is
present and exceeds it. -/
def request_excludes (p : FetchParams) (id : Int) : Prop :=
  ∃ o, p.offset = some o ∧ id < o

/-- `ensure_env_or_die`: a falsy `BOT_TOKEN` (unset, or set to the empty
string) calls `sys.exit(1)`, which raises `SystemExit(1)`; the `error`
payload is the `SystemExit` code.  Whether that exception terminates the
process depends on which thread runs it — see `start_poller_once`. -/
def ensure_env_or_die (bot_token : Option String) : Except Nat Unit :=
  if bot_token.getD ( "" ) == "" then Except.error 1 else Except.ok ()

/-- The startup phase of `poll_loop`: `ensure_env_or_die()` runs before
the `while True:` loop, so an `error` result means the poller raised
`SystemExit` before any fetch cycle ran. -/
def poll_loop_startup (bot_token : Option String) : Except Nat Unit :=
  ensure_env_or_die bot_token

/-- Observable outcome of process startup: whether the process itself
terminated during startup (and with what status), and whether the
poller thread goes on to run fetch cycles. -/
structure StartOutcome where
  process_exit : Option Nat
  poller_runs : Bool
deriving DecidableEq, Repr

/-- `start_poller_once` runs `poll_loop` on a daemon thread created
when the module loads (`threading.Thread(target=poll_loop, daemon=True)`,
`app.py` lines 215 and 228).  A `SystemExit` raised inside a non-main
thread is swallowed silently by Python's thread bootstrap, so the
`sys.exit(1)` in `ensure_env_or_die` ends only the poller thread: the
process does not terminate on this path (it keeps serving and later
exits 0 on a termination signal via `handle_shutdown`). -/
def start_poller_once (bot_token : Option String) : StartOutcome :=
  match poll_loop_startup bot_token with
  | Except.error _ => { process_exit := none, poller_runs := false }
  | Except.ok _ => { process_exit := none, poller_runs := true }

/-- The roll grammar as the spec states it, on the trimmed lower-cased
argument: empty, or all digits, or one-to-two digits then the letter d
then one-to-four digits.  Stated independently of the parser so that
completeness of `parse_roll_arg` over the grammar is a real comparison. -/
def roll_grammar (s : List Char) : Prop :=
  s = [] ∨
  (s ≠ [] ∧ ∀ c ∈ s, c.isDigit) ∨
  (∃ d1 d2 : List Char, s = d1 ++ 'd' :: d2 ∧
    1 ≤ d1.length ∧ d1.length ≤ 2 ∧ (∀ c ∈ d1, c.isDigit) ∧
    1 ≤ d2.length ∧ d2.length ≤ 4 ∧ (∀ c ∈ d2, c.isDigit))

/-- Every path through the loop body leaves the offset at the update's
identifier: the write happens first, and neither skipping nor a caught
handler exception touches it again. -/
theorem process_update_offset (h : Handler)
    (st : Option Int × List (Int × String)) (u : TgUpdate) :
    (process_update h st u).1 = some u.update_id := by
  rcases u with ⟨id, _ | ⟨c, txt⟩⟩
  · rfl
  · cases c with
    | none => rfl
    | some cid =>
      unfold process_update
      dsimp only
      split
      · rfl
      · split <;> rfl

/-- C1: the poll loop writes each update's identifier to the held offset
before dispatch is attempted and a handler failure is caught without
undoing that write, so for every handler, every batch payload and every
starting state, a batch with identifiers 5, 6, 7 leaves the offset at 7. -/
theorem offset_advances_before_dispatch :
    (∀ (h : Handler) (st : Option Int × List (Int × String)) (u : TgUpdate),
        (process_update h st u).1 = some u.update_id) ∧
    ∀ (h : Handler) (m5 m6 m7 : Option TgMessage) (off0 : Option Int)
        (sent0 : List (Int × String)),
      (process_batch h (off0, sent0)
          [⟨5, m5⟩, ⟨6, m6⟩, ⟨7, m7⟩]).1 = some 7 := by
  refine ⟨process_update_offset, ?_⟩
  intro h m5 m6 m7 off0 sent0
  exact process_update_offset h _ ⟨7, m7⟩

/-- C5: whenever an offset o is held the fetch request carries the
offset parameter o + 1, and under the platform's get-updates semantics
that excludes exactly the identifiers at most o; with no offset held no
offset parameter is sent. -/
theorem fetch_request_excludes_processed :
    ∀ (t : Nat) (o : Int),
      (build_get_updates_params t (some o)).offset = some (o + 1) ∧
      (∀ i : Int, i ≤ o ↔ request_excludes (build_get_updates_params t (some o)) i) ∧
      (build_get_updates_params t none).offset = none := by
  intro t o
  refine ⟨rfl, ?_, rfl⟩
  intro i
  constructor
  · intro hi
    exact ⟨o + 1, rfl, by omega⟩
  · rintro ⟨p, hp, hlt⟩
    simp [build_get_updates_params] at hp
    omega

/-- C7: an update with no message, or whose message lacks the chat id or
the text, only moves the offset: nothing is dispatched and nothing is
sent, and the fold continues over the rest of the batch from the updated
state. -/
theorem skip_updates_without_payload :
    ∀ (h : Handler) (off0 : Option Int) (sent0 : List (Int × String))
      (id : Int) (c : Option Int) (txt : Option String)
      (u : TgUpdate) (rest : List TgUpdate),
      process_update h (off0, sent0) ⟨id, none⟩ = (some id, sent0) ∧
      process_update h (off0, sent0) ⟨id, some ⟨none, txt⟩⟩ = (some id, sent0) ∧
      process_update h (off0, sent0) ⟨id, some ⟨c, none⟩⟩ = (some id, sent0) ∧
      process_batch h (off0, sent0) (u :: rest) =
        process_batch h (process_update h (off0, sent0) u) rest := by
  intro h off0 sent0 id c txt u rest
  refine ⟨rfl, rfl, ?_, rfl⟩
  cases c with
  | none => rfl
  | some cid => simp [process_update]

/-- C8 names a code bug: with the credential missing, `sys.exit(1)`
fires with the nonzero code 1 before the poller's first cycle, exactly
as the claim intends, but it runs inside the daemon poller thread, so
the raised `SystemExit` kills only that thread and the process does not
exit at all on this path; with the credential present the poller
proceeds to its cycles, and the process likewise keeps running. -/
theorem missing_credential_kills_only_poller :
    poll_loop_startup none = Except.error 1 ∧
    (start_poller_once none).poller_runs = false ∧
    (start_poller_once none).process_exit = none ∧
    (start_poller_once (some ( "x" ))).poller_runs = true ∧
    (start_poller_once (some ( "x" ))).process_exit = none :=
  ⟨rfl, rfl, rfl, rfl, rfl⟩

/-- C9: a `/roll` with empty argument is exactly `/roll 1d6`: the parse
results agree and, over the same random stream, the full interpreter
produces identical output. -/
theorem roll_empty_equals_1d6 :
    parse_roll_arg [] = parse_roll_arg ( "1d6".data ) ∧
    ∀ (cid : Int) (src : Nat → Nat) (idx : Nat),
      handle_command cid ( "/roll".data ) src idx =
        handle_command cid ( "/roll 1d6".data ) src idx := by
  refine ⟨rfl, ?_⟩
  intro cid src idx
  rfl

/-- C10: the interpreter sends exactly one reply for every input text:
each command branch, the parse-error branch and the unknown-command
fallback all send a single message. -/
theorem one_reply_per_message :
    ∀ (cid : Int) (text : List Char) (src : Nat → Nat) (idx : Nat),
      (handle_command cid text src idx).1.length = 1 := by
  intro cid text src idx
  unfold handle_command handle_command_fuel
  dsimp only
  repeat' split
  all_goals rfl

/-- Splitting a digit run followed by a literal d: because d is not a
digit, takeWhile and dropWhile cut exactly at the d. -/
theorem takeWhile_digits_split (d1 d2 : List Char)
    (hd1 : ∀ c ∈ d1, c.isDigit) :
    (d1 ++ 'd' :: d2).takeWhile Char.isDigit = d1 ∧
    (d1 ++ 'd' :: d2).dropWhile Char.isDigit = 'd' :: d2 := by
  have hd : Char.isDigit 'd' = false := by decide
  induction d1 with
  | nil => simp [List.takeWhile_cons, List.dropWhile_cons, hd]
  | cons c tl ih =>
    have hc : c.isDigit := hd1 c (by simp)
    obtain ⟨h1, h2⟩ := ih (fun x hx => hd1 x (by simp [hx]))
    simp [List.takeWhile_cons, List.dropWhile_cons, hc, h1, h2]

/-- A string of the NdM shape is not all digits. -/
theorem all_digits_ndm (d1 d2 : List Char) :
    all_digits (d1 ++ 'd' :: d2) = false := by
  have hd : Char.isDigit 'd' = false := by decide
  simp [all_digits, hd]

/-- Completeness of the NdM matcher over the grammar's third case. -/
theorem matchNdM_of_shape (d1 d2 : List Char)
    (h1 : 1 ≤ d1.length) (h2 : d1.length ≤ 2) (hd1 : ∀ c ∈ d1, c.isDigit)
    (h3 : 1 ≤ d2.length) (h4 : d2.length ≤ 4) (hd2 : ∀ c ∈ d2, c.isDigit) :
    matchNdM (d1 ++ 'd' :: d2) = some (digitsToNat d1, digitsToNat d2) := by
  obtain ⟨ht, hdrop⟩ := takeWhile_digits_split d1 d2 hd1
  unfold matchNdM
  rw [ht, hdrop]
  simp only [List.all_eq_true]
  simp [h1, h2, h3, h4]
  exact hd2

/-- C2: every argument whose normalised form lies in the roll grammar
parses without error; every successful parse has the count in 1..20 and
the face count in 2..1000; and the out-of-range input 99d9999 is clamped
to (20, 1000) rather than rejected. -/
theorem parse_clamps_to_bounds :
    (∀ (s : List Char) (n m : Nat), parse_roll_arg s = Except.ok (n, m) →
        1 ≤ n ∧ n ≤ 20 ∧ 2 ≤ m ∧ m ≤ 1000) ∧
    (∀ s : List Char, roll_grammar (pyLower (pyStrip s)) →
        ∃ n m : Nat, parse_roll_arg s = Except.ok (n, m)) ∧
    parse_roll_arg ( "99d9999".data ) = Except.ok (20, 1000) := by
  refine ⟨?_, ?_, rfl⟩
  · intro s n m h
    unfold parse_roll_arg at h
    dsimp only at h
    split at h
    · simp only [Except.ok.injEq, Prod.mk.injEq] at h
      omega
    · split at h <;>
        first
        | (simp only [Except.ok.injEq, Prod.mk.injEq] at h; omega)
        | cases h
  · intro s hg
    unfold parse_roll_arg
    rcases hg with hempty | ⟨hne, hall⟩ | ⟨d1, d2, hshape, hl1, hl2, hd1, hl3, hl4, hd2⟩
    · refine ⟨1, 6, ?_⟩
      simp [hempty]
    · have he : (pyLower (pyStrip s)).isEmpty = false := by
        simpa [List.isEmpty_iff] using hne
      have ha : all_digits (pyLower (pyStrip s)) = true := by
        simp only [all_digits, he, List.all_eq_true, Bool.not_false, Bool.true_and]
        exact hall
      refine ⟨1, max 2 (min (digitsToNat (pyLower (pyStrip s))) 1000), ?_⟩
      simp [he, ha]
    · rw [hshape]
      have he : (d1 ++ 'd' :: d2).isEmpty = false := by
        simp [List.isEmpty_iff]
      have hm := matchNdM_of_shape d1 d2 hl1 hl2 hd1 hl3 hl4 hd2
      refine ⟨max 1 (min (digitsToNat d1) 20),
        max 2 (min (digitsToNat d2) 1000), ?_⟩
      simp [he, all_digits_ndm, hm]

/-- Concrete instance of the clamping bounds at the parse of 99d9999. -/
theorem parse_clamps_to_bounds_witness :
    1 ≤ 20 ∧ 20 ≤ 20 ∧ 2 ≤ 1000 ∧ 1000 ≤ 1000 :=
  parse_clamps_to_bounds.1 ( "99d9999".data ) 20 1000 (by rfl)

/-- Dispatch lemma for the roll branch: when the normalised text is
/roll followed by anything, the interpreter's output is determined by
the parse of the remainder exactly as the roll branch writes it. -/
theorem handle_command_roll (cid : Int) (src : Nat → Nat) (idx : Nat)
    (text arg : List Char)
    (ht : removeMentions (pyStrip text) = "/roll".data ++ arg) :
    handle_command cid text src idx =
      match parse_roll_arg (pyStrip arg) with
      | Except.error e => ([(cid, cross_moji ++ " " ++ e)], idx)
      | Except.ok (n, m) =>
        let rolls := roll_values src idx n
        let total := rolls.sum
        if n == 1 then
          ([(cid, dice_moji ++ " d" ++ toString m ++ " " ++ arrow_moji
              ++ " " ++ toString (rolls.headD 0))], idx + n)
        else
          ([(cid, dice_moji ++ " " ++ toString n ++ "d" ++ toString m
              ++ " " ++ arrow_moji ++ " " ++ fmt_list rolls ++ " = "
              ++ toString total)], idx + n) := by
  unfold handle_command handle_command_fuel
  rw [ht]
  dsimp only
  have hp : List.isPrefixOf ( "/roll".data ) ( "/roll".data ++ arg ) = true := by
    simp [List.isPrefixOf_iff_prefix]
  simp only [hp]
  rfl

/-- C3 fails as stated: on the malformed input /roll xyz the reply sent
is not, verbatim, the fixed error string; the code prefixes the
source's mojibake cross mark and a space. -/
theorem error_reply_not_verbatim :
    (handle_command 1 ( "/roll xyz".data ) (fun _ => 3) 0).1 ≠
      [(1, invalid_format_msg)] := by
  decide

/-- C3 amended: for every text whose normalised form is /roll followed
by an argument that fails to parse, the interpreter sends exactly one
reply, the fixed error string prefixed by the source's mojibake cross
mark and a space; no roll is performed and the random-stream index is
unchanged, so no entropy is consumed. -/
theorem error_reply_fixed_string (cid : Int) (src : Nat → Nat) (idx : Nat)
    (text arg : List Char)
    (ht : removeMentions (pyStrip text) = "/roll".data ++ arg)
    (he : parse_roll_arg (pyStrip arg) = Except.error invalid_format_msg) :
    handle_command cid text src idx =
      ([(cid, cross_moji ++ " " ++ invalid_format_msg)], idx) := by
  rw [handle_command_roll cid src idx text arg ht, he]

/-- Concrete instance: /roll xyz receives the prefixed fixed error
string and the random-stream index stays 0. -/
theorem error_reply_fixed_string_witness :
    handle_command 1 ( "/roll xyz".data ) (fun _ => 3) 0 =
      ([(1, cross_moji ++ " " ++ invalid_format_msg)], 0) :=
  error_reply_fixed_string 1 (fun _ => 3) 0 ( "/roll xyz".data )
    ( " xyz".data ) (by rfl) (by rfl)

/-- C4 fails as stated: /ROLL is not dispatched to the same handler as
/roll; the prefix match on command names is case-sensitive, so /ROLL
falls through to the unknown-command reply while /roll rolls a die. -/
theorem upper_case_goes_to_fallback :
    handle_command 1 ( "/ROLL".data ) (fun _ => 3) 0
        = ([(1, unknown_reply)], 0) ∧
    handle_command 1 ( "/roll".data ) (fun _ => 3) 0
        ≠ ([(1, unknown_reply)], 0) := by
  exact ⟨rfl, by decide⟩

/-- C4 amended: command recognition is prefix-matched and case-sensitive
on the lowercase command names, after deleting every mention suffix of
the form at-sign-name anywhere in the text; lowercase commands dispatch
to their handlers, /help behaves as /start and /coin as /flip, while
uppercase variants fall through to the unknown-command reply. -/
theorem command_recognition_case_sensitive
    (cid : Int) (src : Nat → Nat) (idx : Nat) :
    handle_command cid ( "/start@SomeBot".data ) src idx =
      handle_command cid ( "/start".data ) src idx ∧
    handle_command cid ( "/help".data ) src idx =
      handle_command cid ( "/start".data ) src idx ∧
    handle_command cid ( "/flip@A_Bot".data ) src idx =
      handle_command cid ( "/flip".data ) src idx ∧
    handle_command cid ( "/coin".data ) src idx =
      handle_command cid ( "/flip".data ) src idx ∧
    handle_command cid ( "/roll@Bot99 2d6".data ) src idx =
      handle_command cid ( "/roll 2d6".data ) src idx ∧
    handle_command cid ( "/ROLL".data ) src idx
        = ([(cid, unknown_reply)], idx) ∧
    handle_command cid ( "/Flip".data ) src idx
        = ([(cid, unknown_reply)], idx) :=
  ⟨rfl, rfl, rfl, rfl, rfl, rfl, rfl⟩

/-- C6 fails as stated: with the random source fixed to 3, /roll 2d6
does not produce the clean-emoji reply the claim writes, because the
source's string literals are mojibake. -/
theorem roll_2d6_reply_not_clean :
    (handle_command 1 ( "/roll 2d6".data ) (fun _ => 3) 0).1 ≠
      [(1, "🎲 2d6 → [3, 3] = 6" )] := by
  decide

/-- C6 amended: for a successfully parsed roll of n dice with m faces,
the reply is the source's mojibake die prefix, then the face count and
the mojibake arrow and the single value when n is 1, and the count,
face count, mojibake arrow, bracketed comma-separated list of the n
values and their sum when n is not 1; the values are the n consecutive
draws of the random stream starting at the current index, and the index
advances by n. -/
theorem roll_reply_format (cid : Int) (src : Nat → Nat) (idx : Nat)
    (text arg : List Char) (n m : Nat)
    (ht : removeMentions (pyStrip text) = "/roll".data ++ arg)
    (hp : parse_roll_arg (pyStrip arg) = Except.ok (n, m)) :
    (n = 1 → handle_command cid text src idx =
        ([(cid, dice_moji ++ " d" ++ toString m ++ " " ++ arrow_moji
            ++ " " ++ toString (src idx))], idx + 1)) ∧
    (n ≠ 1 → handle_command cid text src idx =
        ([(cid, dice_moji ++ " " ++ toString n ++ "d" ++ toString m
            ++ " " ++ arrow_moji ++ " " ++ fmt_list (roll_values src idx n)
            ++ " = " ++ toString (roll_values src idx n).sum)],
          idx + n)) := by
  rw [handle_command_roll cid src idx text arg ht, hp]
  constructor
  · intro h1
    subst h1
    rfl
  · intro hne
    have hb : (n == 1) = false := by
      simpa using hne
    simp only [hb]
    rfl

/-- Concrete instance of the roll reply format: /roll 2d6 with the
random stream fixed at 3 produces the mojibake-prefixed reply listing
3, 3 and the total 6, and consumes two draws. -/
theorem roll_reply_format_witness :
    handle_command 1 ( "/roll 2d6".data ) (fun _ => 3) 0 =
      ([(1, dice_moji ++ " 2d6 " ++ arrow_moji ++ ( " [3, 3] = 6" ))], 2) := by
  have h := (roll_reply_format 1 (fun _ => 3) 0 ( "/roll 2d6".data )
      ( " 2d6".data ) 2 6 (by rfl) (by rfl)).2 (by decide)
  exact h.trans (by decide)

end DiceBot
